import Mathlib

/-!
Verification of the unified-docs-hub document index and ranking engine.

Python strings are modelled as lists of Unicode scalar values (`PyStr`), so
`len`, slicing, concatenation and `'\n'.join` correspond to `List.length`,
`List.take`/`List.drop`, `++` and an explicit join.  SQLite `REAL` values and
Python floats are modelled as exact rationals; where a float constant decides
an integer comparison (`0.8 * 512000`, `0.9 * 512000`) the rounded double is
exactly the integer threshold used here (checked against IEEE-754 doubles).
Grades are atomic labels and kept as Lean `String`s.
-/

set_option maxRecDepth 10000

/-- A Python `str`: a sequence of Unicode scalar values. -/
abbrev PyStr := List Char

/-- Literal helper: a Lean string literal viewed as a `PyStr`. -/
def lit (s : String) : PyStr := s.toList

/-- The apostrophe character (U+0027), used by several Python f-strings. -/
def apos : Char := Char.ofNat 39

/-- The backtick character (U+0060), used by the markdown scanners. -/
def btick : Char := Char.ofNat 96

/-- Python `sep.join(parts)`. -/
def joinSep (sep : PyStr) : List PyStr → PyStr
  | [] => []
  | [x] => x
  | x :: xs => x ++ sep ++ joinSep sep xs

/-- Python `'\n'.join(parts)`. -/
def joinNL (parts : List PyStr) : PyStr := joinSep (lit "\n") parts

/-- Python `' '.join(parts)`. -/
def joinSpace (parts : List PyStr) : PyStr := joinSep (lit " ") parts

/-- ASCII lower-casing, modelling Python `str.lower()` on the ASCII inputs
the engine manipulates. -/
def pyLower (s : PyStr) : PyStr :=
  s.map fun c => if 65 ≤ c.val ∧ c.val ≤ 90 then Char.ofNat (c.toNat + 32) else c

/-- Python truthiness of an optional string (`None` and `''` are falsy). -/
def optTruthy (o : Option PyStr) : Bool :=
  match o with
  | none => false
  | some s => !s.isEmpty

/-- Python `needle in haystack` for strings (substring containment). -/
def strContains (hay pat : PyStr) : Bool :=
  match hay with
  | [] => pat.isEmpty
  | _ :: rest => pat.isPrefixOf hay || strContains rest pat

/-- Fuel-driven scan for `strCount`: each step consumes at least one
character of the haystack, so `hay.length` fuel is always enough. -/
def strCountFuel : Nat → PyStr → PyStr → Nat
  | 0, _, _ => 0
  | _ + 1, [], _ => 0
  | fuel + 1, c :: rest, pat =>
    if pat.isPrefixOf (c :: rest) ∧ pat ≠ [] then
      1 + strCountFuel fuel ((c :: rest).drop pat.length) pat
    else
      strCountFuel fuel rest pat

/-- Python `haystack.count(needle)` for a non-empty needle: the number of
non-overlapping occurrences, scanning left to right. -/
def strCount (hay pat : PyStr) : Nat := strCountFuel hay.length hay pat

/-- Decimal rendering of a natural number (Python `str(n)` for `n ≥ 0`). -/
def natStr (n : Nat) : PyStr := (Nat.repr n).toList

/-- Insert a comma every three digits, counting from the right: the digit
grouping of Python's `f"{n:,}"` format. -/
def commaGroupRev : List Char → Nat → List Char
  | [], _ => []
  | c :: rest, k =>
    if k = 3 then ',' :: c :: commaGroupRev rest 1
    else c :: commaGroupRev rest (k + 1)

/-- Python `f"{n:,}"`: decimal digits with thousands separators. -/
def commaFmt (n : Nat) : PyStr := (commaGroupRev (natStr n).reverse 0).reverse

/-- Python `s[:n]` where `n` may be negative (negative indices count from the
end, and the result is clamped to the string). -/
def pySliceTo (s : PyStr) (n : Int) : PyStr :=
  if 0 ≤ n then s.take n.toNat else s.take (s.length - (-n).toNat)

/-! ## Response limiter (`src/response_limiter.py`) -/

/-- `ResponseLimiter.MAX_RESPONSE_SIZE = 500 * 1024`. -/
def MAX_RESPONSE_SIZE : Nat := 500 * 1024

/-- `ResponseLimiter.MAX_CONTENT_PREVIEW = 1000`. -/
def MAX_CONTENT_PREVIEW : Nat := 1000

/-- `ResponseLimiter.MAX_SEARCH_RESULTS = 20`. -/
def MAX_SEARCH_RESULTS : Nat := 20

/-- `ResponseLimiter.truncate_text`: return `text` unchanged when it fits,
otherwise `text[:max_length - 4] + " ..."`. -/
def truncate_text (text : PyStr) (max_length : Int) : PyStr :=
  if (text.length : Int) ≤ max_length then text
  else pySliceTo text (max_length - 4) ++ lit " ..."

/-- A search-result record, with the keys the response limiter reads.  A
`none` field models an absent dictionary key. -/
structure SearchRec where
  full_name : Option PyStr := none
  stars : Option Nat := none
  language : Option PyStr := none
  path : Option PyStr := none
  snippet : Option PyStr := none
  description : Option PyStr := none

/-- The serialized form of one character under `json.dumps` with its default
`ensure_ascii=True` (short escapes for the common controls, `\uXXXX` for the
other controls and all non-ASCII code points, surrogate pairs beyond
U+FFFF). -/
def jsonEscLen (c : Char) : Nat :=
  if c.val = 34 ∨ c.val = 92 then 2
  else if c.val < 32 then
    (if c.val = 8 ∨ c.val = 9 ∨ c.val = 10 ∨ c.val = 12 ∨ c.val = 13 then 2 else 6)
  else if c.val < 127 then 1
  else if c.val < 65536 then 6
  else 12

/-- Length of `json.dumps(s)` for a string `s` (two quotes plus escapes). -/
def jsonStrLen (s : PyStr) : Nat := 2 + (s.map jsonEscLen).sum

/-- Lengths of the `"key": value` pieces of `json.dumps(result)`, one per
present key. -/
def jsonFieldLens (r : SearchRec) : List Nat :=
  (match r.full_name with | some s => [9 + 4 + jsonStrLen s] | none => []) ++
  (match r.stars with | some n => [5 + 4 + (natStr n).length] | none => []) ++
  (match r.language with | some s => [8 + 4 + jsonStrLen s] | none => []) ++
  (match r.path with | some s => [4 + 4 + jsonStrLen s] | none => []) ++
  (match r.snippet with | some s => [7 + 4 + jsonStrLen s] | none => []) ++
  (match r.description with | some s => [11 + 4 + jsonStrLen s] | none => [])

/-- `ResponseLimiter.estimate_size`: `len(json.dumps(result))` for a result
record (braces, the pieces, and `", "` separators between them). -/
def estimate_size (r : SearchRec) : Nat :=
  let fs := jsonFieldLens r
  if fs.isEmpty then 2 else 2 + fs.sum + 2 * (fs.length - 1)

/-- The per-result mutation of `limit_search_results`: snippet truncated to
200 characters, description to 100. -/
def truncRec (r : SearchRec) : SearchRec :=
  { r with
    snippet := r.snippet.map (fun s => truncate_text s 200),
    description := r.description.map (fun s => truncate_text s 100) }

/-- Loop body of `ResponseLimiter.limit_search_results`: truncate snippet and
description, then stop before the running serialized size exceeds
`0.8 * MAX_RESPONSE_SIZE` (the rounded double is exactly 409600, so the float
comparison `total + size > 409600.0` on integers is `409600 < total + size`). -/
def limitLoop (total : Nat) : List SearchRec → List SearchRec
  | [] => []
  | r :: rest =>
    if 409600 < total + estimate_size (truncRec r) then []
    else truncRec r :: limitLoop (total + estimate_size (truncRec r)) rest

/-- `ResponseLimiter.limit_search_results`. -/
def limit_search_results (results : List SearchRec) : List SearchRec :=
  limitLoop 0 (results.take MAX_SEARCH_RESULTS)

/-- `ResponseLimiter.limit_document_content`. -/
def limit_document_content (content : PyStr) : PyStr :=
  truncate_text content (MAX_CONTENT_PREVIEW : Int)

/-- The lines `format_search_response` emits for one (already limited)
result. -/
def searchResultLines (r : SearchRec) : List PyStr :=
  [lit "📦 " ++ (r.full_name.getD (lit "Unknown")) ++ lit " ⭐ " ++ commaFmt (r.stars.getD 0)] ++
  (if optTruthy r.language then [lit "   Language: " ++ r.language.getD []] else []) ++
  (if optTruthy r.path then [lit "   File: " ++ r.path.getD []] else []) ++
  (if optTruthy r.snippet then [lit "   Preview: " ++ r.snippet.getD []] else []) ++
  [([] : PyStr)]

/-- `ResponseLimiter.format_search_response`. -/
def format_search_response (results : List SearchRec) (query : PyStr) : PyStr :=
  if results.isEmpty then
    lit "No results found for " ++ [apos] ++ query ++ [apos]
  else
    let limited := limit_search_results results
    let header := lit "🔍 Search Results for " ++ [apos] ++ query ++ [apos]
    let showing := lit "Showing " ++ natStr limited.length ++ lit " of " ++
      natStr results.length ++ lit " results\n"
    let result_text := joinNL ([header, showing] ++ limited.flatMap searchResultLines)
    if MAX_RESPONSE_SIZE < result_text.length then
      result_text.take (MAX_RESPONSE_SIZE - 100) ++ lit "\n\n[Response truncated due to size limits]"
    else
      result_text

/-- A document record as consumed by `format_docs_response` (`none` models an
absent key). -/
structure DocRec where
  path : Option PyStr := none
  content : Option PyStr := none

/-- The `section` list built for one document in `format_docs_response`. -/
def docSectionLines (d : DocRec) : List PyStr :=
  let content := d.content.getD []
  [List.replicate 50 '=',
   lit "📄 " ++ (d.path.getD (lit "Unknown")),
   List.replicate 50 '=',
   limit_document_content content] ++
  (if optTruthy d.content ∧ MAX_CONTENT_PREVIEW < content.length then
    [lit "\n[Content truncated - use specific file tools to view full content]"] else []) ++
  [([] : PyStr)]

/-- The omission marker `format_docs_response` appends when it stops early. -/
def docsMarker (n : Nat) : PyStr :=
  lit "\n[" ++ natStr n ++ lit " more documents not shown due to size limits]"

/-- Loop of `format_docs_response`: append each section's lines while the
running size stays within `0.9 * MAX_RESPONSE_SIZE` (the rounded double is
exactly 460800), otherwise append the `"N more documents not shown"` marker
for all remaining documents and stop. -/
def docsLoop (total : Nat) : List DocRec → List PyStr
  | [] => []
  | d :: rest =>
    let sec := docSectionLines d
    let secSize := (joinNL sec).length
    if 460800 < total + secSize then [docsMarker (d :: rest).length]
    else sec ++ docsLoop (total + secSize) rest

/-- The header line of `format_docs_response`. -/
def docsHeader (repo_name : PyStr) : PyStr :=
  lit "📚 Documentation for " ++ repo_name ++ lit "\n"

/-- `ResponseLimiter.format_docs_response`. -/
def format_docs_response (docs : List DocRec) (repo_name : PyStr) : PyStr :=
  if docs.isEmpty then
    lit "No documentation found for " ++ [apos] ++ repo_name ++ [apos]
  else
    joinNL (docsHeader repo_name :: docsLoop (docsHeader repo_name).length docs)

/-- A list item as consumed by `format_list_response`. -/
structure ListItem where
  name : Option PyStr := none
  stars : Option Nat := none
  category : Option PyStr := none
  description : Option PyStr := none

/-- The line `format_list_response` builds for one item (`stars` and
`category` are skipped when falsy, descriptions are truncated to 60). -/
def listItemLine (item : ListItem) : PyStr :=
  lit "• " ++ (item.name.getD (lit "Unknown")) ++
  (match item.stars with
   | some n => if n ≠ 0 then lit " ⭐ " ++ commaFmt n else []
   | none => []) ++
  (if optTruthy item.category then lit " [" ++ item.category.getD [] ++ lit "]" else []) ++
  (if optTruthy item.description then
    lit " - " ++ truncate_text (item.description.getD []) 60 else [])

/-- `ResponseLimiter.format_list_response`: at most 50 item lines under the
title, plus a `"... and N more"` tail when the input is longer. -/
def format_list_response (items : List ListItem) (title : PyStr) : PyStr :=
  let output := (title ++ lit "\n") :: (items.take 50).map listItemLine
  let output := if 50 < items.length then
      output ++ [lit "\n... and " ++ natStr (items.length - 50) ++ lit " more"]
    else output
  joinNL output

/-! ### C10: `truncate_text` -/

/-- C10: for `max_length ≥ 4`, `truncate_text` returns the text unchanged when
it fits and otherwise returns exactly `max_length` characters ending in
`" ..."`; the output length never exceeds `max_length`. -/
theorem truncate_text_spec (text : PyStr) (max_length : Int)
    (h4 : 4 ≤ max_length) :
    ((text.length : Int) ≤ max_length → truncate_text text max_length = text) ∧
    (max_length < (text.length : Int) →
      ((truncate_text text max_length).length : Int) = max_length ∧
      lit " ..." <:+ truncate_text text max_length) ∧
    ((truncate_text text max_length).length : Int) ≤ max_length := by
  by_cases hle : (text.length : Int) ≤ max_length
  · refine ⟨fun _ => ?_, fun hlt => absurd hlt (not_lt.mpr hle), ?_⟩
    · simp [truncate_text, hle]
    · simp [truncate_text, hle]
  · have hlt : max_length < (text.length : Int) := lt_of_not_le hle
    have hnn : 0 ≤ max_length - 4 := by omega
    have htake : (pySliceTo text (max_length - 4)).length = (max_length - 4).toNat := by
      simp only [pySliceTo, if_pos hnn, List.length_take]
      have : (max_length - 4).toNat ≤ text.length := by omega
      omega
    have hlen : ((truncate_text text max_length).length : Int) = max_length := by
      simp only [truncate_text, if_neg hle, List.length_append, htake]
      have : (lit " ...").length = 4 := by decide
      rw [this]
      push_cast
      omega
    refine ⟨fun hle2 => absurd hle2 hle, fun _ => ⟨hlen, ?_⟩, le_of_eq hlen⟩
    exact ⟨pySliceTo text (max_length - 4), by simp [truncate_text, hle]⟩

/-- C10 witness: `truncate_text` at a concrete overlong input. -/
theorem truncate_text_spec_witness :
    ((4 : Int) ≤ 8) ∧
    (((truncate_text (lit "hello world") 8).length : Int) = 8 ∧
      lit " ..." <:+ truncate_text (lit "hello world") 8) ∧
    ((truncate_text (lit "hello world") 8).length : Int) ≤ 8 := by
  have h := truncate_text_spec (lit "hello world") 8 (by norm_num)
  exact ⟨by norm_num, h.2.1 (by decide), h.2.2⟩

/-! ### C2: response size ceiling -/

/-- C2 (amended): for every non-empty result list and every query, the text
returned by `format_search_response` has at most `MAX_RESPONSE_SIZE`
characters — the final clamp truncates to the ceiling minus 100 and appends a
41-character truncation note. -/
theorem format_search_response_bounded (r : SearchRec) (rs : List SearchRec)
    (query : PyStr) :
    (format_search_response (r :: rs) query).length ≤ MAX_RESPONSE_SIZE := by
  simp only [format_search_response, List.isEmpty_cons, Bool.false_eq_true, if_false]
  set T := joinNL ([_, _] ++ (limit_search_results (r :: rs)).flatMap searchResultLines) with hT
  by_cases h : MAX_RESPONSE_SIZE < T.length
  · simp only [if_pos h, List.length_append, List.length_take]
    have h41 : (lit "\n\n[Response truncated due to size limits]").length = 41 := by decide
    rw [h41]
    have : min (MAX_RESPONSE_SIZE - 100) T.length ≤ MAX_RESPONSE_SIZE - 100 :=
      min_le_left _ _
    simp only [MAX_RESPONSE_SIZE] at *
    omega
  · simp only [if_neg h]
    omega

/-- The list formatter's output for a single item that only has a name. -/
theorem format_list_single (s t : PyStr) :
    format_list_response [{ name := some s }] t = t ++ lit "\n" ++ lit "\n" ++ (lit "• " ++ s) := by
  simp [format_list_response, listItemLine, optTruthy, joinNL, joinSep]

/-- C2 counterexample: `format_list_response` never applies the size ceiling,
so a single item whose `name` is 600000 ASCII characters yields a payload of
more than `MAX_RESPONSE_SIZE` characters — and a UTF-8 payload has at least
as many bytes as characters, so its byte size exceeds the ceiling too. -/
theorem format_list_response_overflow :
    MAX_RESPONSE_SIZE <
      (format_list_response [{ name := some (List.replicate 600000 'a') }] (lit "T")).length := by
  rw [format_list_single (List.replicate 600000 'a') (lit "T")]
  rw [List.length_append, List.length_append, List.length_append, List.length_append,
    List.length_replicate 600000 'a']
  norm_num [MAX_RESPONSE_SIZE, lit]

/-! ### C8: omission markers -/

/-- Shape lemma for the accumulation loop of `format_docs_response`: either
every document's section is emitted, or the loop stops after the sections of
the first `k` documents and appends the marker naming exactly the
`docs.length - k` omitted documents. -/
theorem docsLoop_spec (docs : List DocRec) (total : Nat) :
    docsLoop total docs = (docs.map docSectionLines).flatten ∨
    ∃ k, k < docs.length ∧
      docsLoop total docs =
        ((docs.take k).map docSectionLines).flatten ++ [docsMarker (docs.length - k)] ∧
      0 < docs.length - k := by
  induction docs generalizing total with
  | nil => left; simp [docsLoop]
  | cons d rest ih =>
    rw [docsLoop]
    by_cases h : 460800 < total + (joinNL (docSectionLines d)).length
    · right
      refine ⟨0, by simp, ?_, by simp⟩
      simp [if_pos h]
    · simp only [if_neg h]
      rcases ih (total + (joinNL (docSectionLines d)).length) with heq | ⟨k, hk, heq, hpos⟩
      · left
        simp [heq]
      · right
        have hlen : (d :: rest).length - (k + 1) = rest.length - k := by
          simp [List.length_cons]
        refine ⟨k + 1, ?_, ?_, ?_⟩
        · simp only [List.length_cons]
          omega
        · rw [List.take_succ_cons, List.map_cons, List.flatten_cons, hlen, heq,
            List.append_assoc]
        · rw [hlen]
          exact hpos

/-- C8 (amended): whenever `format_docs_response`'s cumulative-size
accumulation stops early, the payload consists of the header, the sections of
the documents that fit, and a marker stating the number of omitted documents —
a count that is non-zero and equals the true remainder; otherwise every
document's section is shown. -/
theorem format_docs_response_marker (repo : PyStr) (d : DocRec) (ds : List DocRec) :
    format_docs_response (d :: ds) repo =
      joinNL (docsHeader repo :: ((d :: ds).map docSectionLines).flatten) ∨
    ∃ k, k < (d :: ds).length ∧
      format_docs_response (d :: ds) repo =
        joinNL (docsHeader repo ::
          ((((d :: ds).take k).map docSectionLines).flatten ++
          [docsMarker ((d :: ds).length - k)])) ∧
      0 < (d :: ds).length - k := by
  simp only [format_docs_response, List.isEmpty_cons, Bool.false_eq_true, if_false]
  rcases docsLoop_spec (d :: ds) (docsHeader repo).length with heq | ⟨k, hk, heq, hpos⟩
  · left; rw [heq]
  · right
    exact ⟨k, hk, by rw [heq], hpos⟩

/-- A search result whose serialized size alone exceeds the 80% safety
fraction of the ceiling: its `full_name` is 500000 ASCII characters. -/
def bigSearchRec : SearchRec := { full_name := some (List.replicate 500000 'a') }

/-- `estimate_size` of a record holding only a `full_name`. -/
theorem estimate_size_full_name (s : PyStr) :
    estimate_size { full_name := some s } = 15 + jsonStrLen s := by
  simp [estimate_size, jsonFieldLens]
  omega

/-- The escape lengths of a 500000-fold repeated ASCII character. -/
theorem escLens_of_replicate :
    (List.replicate 500000 'a').map jsonEscLen = List.replicate 500000 1 :=
  (List.map_replicate).trans
    (congrArg (fun x => List.replicate 500000 x) (by decide : jsonEscLen 'a' = 1))

/-- Summing the 500000 unit escape lengths. -/
theorem sum_replicate_500000 : (List.replicate 500000 (1 : Nat)).sum = 500000 := by
  rw [List.sum_replicate 500000 1, smul_eq_mul, mul_one]

/-- `json.dumps` length of the oversized full name. -/
theorem jsonStrLen_big : jsonStrLen (List.replicate 500000 'a') = 500002 := by
  rw [jsonStrLen, escLens_of_replicate, sum_replicate_500000]

/-- `json.dumps` length of `bigSearchRec`. -/
theorem estimate_size_bigSearchRec : estimate_size bigSearchRec = 500017 := by
  rw [show bigSearchRec = { full_name := some (List.replicate 500000 'a') } from rfl,
    estimate_size_full_name, jsonStrLen_big]

/-- The truncation map leaves `bigSearchRec` unchanged (it has no snippet or
description). -/
theorem truncRec_bigSearchRec : truncRec bigSearchRec = bigSearchRec := rfl

/-- The limiter drops the oversized result without including anything. -/
theorem limit_search_results_big : limit_search_results [bigSearchRec] = [] := by
  have hstep : limit_search_results [bigSearchRec] = limitLoop 0 [bigSearchRec] := rfl
  rw [hstep, limitLoop, truncRec_bigSearchRec, estimate_size_bigSearchRec]
  norm_num

/-- C8 counterexample: the cumulative-size accumulation of
`limit_search_results` stops before including the (single) oversized result,
omitting one item, yet the returned payload is only the header plus
`"Showing 0 of 1 results"` — no marker states the non-zero count of omitted
items, so omission on the search path is not reported as the claim demands. -/
theorem limit_search_results_silent :
    limit_search_results [bigSearchRec] = [] ∧
    format_search_response [bigSearchRec] (lit "q") =
      lit "🔍 Search Results for " ++ [apos] ++ lit "q" ++ [apos] ++ lit "\n" ++
      lit "Showing 0 of 1 results\n" := by
  refine ⟨limit_search_results_big, ?_⟩
  simp only [format_search_response, List.isEmpty_cons, Bool.false_eq_true, if_false,
    limit_search_results_big]
  norm_num [joinNL, joinSep, natStr, Nat.repr, lit, List.length_cons]
  decide

/-! ## Quality scorer (`src/quality_scorer.py`)

The regex counts (` ``` ` fenced blocks, inline code spans, markdown headers)
are implemented as scanners with the same leftmost, non-overlapping matching
semantics as `re.findall` on the three patterns the scorer uses. -/

/-- Scanner for the lazy fenced-block pattern: `inside` records whether an
opening fence has been seen, `run` the number of consecutive backticks of the
fence currently being read.  Completing three consecutive backticks opens a
block when outside and closes (and counts) it when inside, exactly the
leftmost non-overlapping matches of `re.findall(r'```[\s\S]*?```', s)`. -/
def ccbAux : Bool → Nat → PyStr → Nat
  | _, _, [] => 0
  | inside, run, c :: rest =>
    if c = btick then
      if run = 2 then
        if inside then 1 + ccbAux false 0 rest else ccbAux true 0 rest
      else ccbAux inside (run + 1) rest
    else ccbAux inside 0 rest

/-- `len(re.findall(r'```[\s\S]*?```', s))`. -/
def countCodeBlocks (s : PyStr) : Nat := ccbAux false 0 s

/-- Scanner for inline code spans, with state 0 = outside a span, 1 = just
after a candidate opening backtick, 2 = inside a span with at least one
non-backtick.  A backtick in state 1 restarts the candidate opening (the
regex retries from the next position), matching the leftmost non-overlapping
matches of `` re.findall(r'`[^`]+`', s) ``. -/
def cicAux : Nat → PyStr → Nat
  | _, [] => 0
  | st, c :: rest =>
    if c = btick then
      if st = 2 then 1 + cicAux 0 rest
      else cicAux 1 rest
    else
      if st = 0 then cicAux 0 rest
      else cicAux 2 rest

/-- `` len(re.findall(r'`[^`]+`', s)) ``. -/
def countInlineCode (s : PyStr) : Nat := cicAux 0 s

/-- Python `s.split('\n')`. -/
def splitLines : PyStr → List PyStr
  | [] => [[]]
  | c :: rest =>
    if c = '\n' then [] :: splitLines rest
    else
      match splitLines rest with
      | [] => [[c]]
      | l :: ls => (c :: l) :: ls

/-- ASCII whitespace, the characters `\s` matches in the scorer's ASCII
content. -/
def isPySpace (c : Char) : Bool :=
  c.val = 32 ∨ c.val = 9 ∨ c.val = 10 ∨ c.val = 11 ∨ c.val = 12 ∨ c.val = 13

/-- Whether a line begins with one to six `#` followed by whitespace; for a
non-final line the terminating newline itself can serve as the `\s`. -/
def isHeaderLine (l : PyStr) (isLast : Bool) : Bool :=
  let k := (l.takeWhile (· = '#')).length
  decide (1 ≤ k) && decide (k ≤ 6) &&
    (match l.drop k with
     | c :: _ => isPySpace c
     | [] => !isLast)

/-- Header count over the split lines (the last line has no newline after
it). -/
def countHeaderLines : List PyStr → Nat
  | [] => 0
  | [l] => if isHeaderLine l true then 1 else 0
  | l :: ls => (if isHeaderLine l false then 1 else 0) + countHeaderLines ls

/-- `len(re.findall(r'^#{1,6}\s', s, re.MULTILINE))`. -/
def countHeaders (s : PyStr) : Nat := countHeaderLines (splitLines s)

/-- A document as read by the scorer: `doc['path']` is required,
`doc.get('content', '')` may be absent. -/
structure ScoreDoc where
  path : PyStr
  content : Option PyStr := none

/-- The repository metadata the scorer reads.  `pushedDaysAgo` models
`(datetime.now() - parsed pushed_at).days`; `none` stands for an empty or
unparseable `pushed_at`. -/
structure RepoInfo where
  pushedDaysAgo : Option Int := none
  stargazers_count : Nat := 0
  topics : List PyStr := []
  description : Option PyStr := none
  license : Option PyStr := none

/-- `QualityScorer._score_completeness`. -/
def score_completeness (docs : List ScoreDoc) : ℚ :=
  let doc_paths := docs.map (fun d => pyLower d.path)
  let joined := joinSpace doc_paths
  let score : ℚ :=
    (if doc_paths.any (fun p => strContains p (lit "readme")) then 3/10 else 0) +
    (if doc_paths.any (fun p =>
        [lit "docs/", lit "documentation/", lit "wiki/", lit "guide/"].any
          (fun ind => strContains p ind)) then 1/5 else 0) +
    (if doc_paths.any (fun p => strContains p (lit "api")) then 1/10 else 0) +
    (if [lit "install", lit "setup", lit "getting-started"].any
        (fun k => strContains joined k) then 1/10 else 0) +
    (if doc_paths.any (fun p => strContains p (lit "contributing")) then 1/10 else 0) +
    (if [lit "example", lit "tutorial", lit "sample"].any
        (fun k => strContains joined k) then 1/10 else 0) +
    (if doc_paths.any (fun p =>
        strContains p (lit "changelog") || strContains p (lit "history")) then 1/10 else 0)
  min score 1

/-- `QualityScorer._score_freshness` as a function of the parsed age in
days. -/
def score_freshness (repo : RepoInfo) : ℚ :=
  match repo.pushedDaysAgo with
  | none => 1/2
  | some d =>
    if d < 30 then 1
    else if d < 90 then 4/5
    else if d < 180 then 3/5
    else if d < 365 then 2/5
    else 1/5

/-- `QualityScorer._score_structure`. -/
def score_structure (docs : List ScoreDoc) : ℚ :=
  let s1 : ℚ := if 5 < docs.length then 3/10 else 0
  let depth_scores : List ℚ := docs.filterMap (fun d =>
    let depth := d.path.count '/'
    if 0 < depth then some (min ((depth : ℚ) * (1/10)) (3/10)) else none)
  let s2 : ℚ := if depth_scores.isEmpty then 0
    else depth_scores.sum / (depth_scores.length : ℚ)
  let content_combined := joinSpace (docs.map (fun d => (d.content.getD []).take 1000))
  let s3 : ℚ := if [lit "table of contents", lit "index", lit "## contents"].any
      (fun ind => strContains (pyLower content_combined) ind) then 1/5 else 0
  let s4 : ℚ := if 10 < countHeaders content_combined then 1/5 else 0
  min (s1 + s2 + s3 + s4) 1

/-- `QualityScorer._score_examples`. -/
def score_examples (docs : List ScoreDoc) : ℚ :=
  let content_combined := joinSpace (docs.map (fun d => (d.content.getD []).take 5000))
  let lowered := pyLower content_combined
  let s1 : ℚ := min ((countCodeBlocks content_combined : ℚ) * (1/20)) (2/5)
  let kw := [lit "example", lit "sample", lit "demo", lit "tutorial",
    lit "quickstart", lit "getting started"]
  let keyword_count := (kw.map (fun k => strCount lowered k)).sum
  let s2 : ℚ := min ((keyword_count : ℚ) * (1/50)) (3/10)
  let s3 : ℚ := if [lit "playground", lit "codesandbox", lit "stackblitz", lit "demo"].any
      (fun k => strContains lowered k) then 1/5 else 0
  let s4 : ℚ := min ((countInlineCode content_combined : ℚ) * (1/100)) (1/10)
  min (s1 + s2 + s3 + s4) 1

/-- `QualityScorer._score_community`. -/
def score_community (repo : RepoInfo) : ℚ :=
  let stars := repo.stargazers_count
  let s1 : ℚ := if 10000 < stars then 2/5
    else if 1000 < stars then 3/10
    else if 100 < stars then 1/5
    else if 10 < stars then 1/10
    else 0
  let s2 : ℚ := if !repo.topics.isEmpty then 1/5 else 0
  let s3 : ℚ := if optTruthy repo.description then 1/5 else 0
  let s4 : ℚ := if optTruthy repo.license then 1/5 else 0
  min (s1 + s2 + s3 + s4) 1

/-- `QualityScorer._score_accessibility`. -/
def score_accessibility (docs : List ScoreDoc) : ℚ :=
  let s1 : ℚ := if docs.any (fun d =>
      [lit "readme.md", lit "readme.rst", lit "readme.txt"].any
        (fun n => pyLower d.path = n)) then 2/5 else 0
  let clear_names := [lit "install", lit "setup", lit "guide", lit "tutorial",
    lit "api", lit "reference"]
  let matching_files := (docs.filter (fun d =>
    clear_names.any (fun n => strContains (pyLower d.path) n))).length
  let s2 : ℚ := min ((matching_files : ℚ) * (1/10)) (3/10)
  let s3 : ℚ := if 3 ≤ docs.length ∧ docs.length ≤ 20 then 3/10
    else if 20 < docs.length then 1/10
    else 0
  min (s1 + s2 + s3) 1

/-- `QualityScorer._get_grade`. -/
def get_grade (score : ℚ) : String :=
  if 9/10 ≤ score then "A+"
  else if 85/100 ≤ score then "A"
  else if 80/100 ≤ score then "A-"
  else if 75/100 ≤ score then "B+"
  else if 70/100 ≤ score then "B"
  else if 65/100 ≤ score then "B-"
  else if 60/100 ≤ score then "C+"
  else if 55/100 ≤ score then "C"
  else if 50/100 ≤ score then "C-"
  else if 40/100 ≤ score then "D"
  else "F"

/-- The fixed metric weights of `QualityScorer.__init__`. -/
def wCompleteness : ℚ := 25/100
/-- Weight of the freshness metric. -/
def wFreshness : ℚ := 20/100
/-- Weight of the structure metric. -/
def wStructure : ℚ := 20/100
/-- Weight of the examples metric. -/
def wExamples : ℚ := 15/100
/-- Weight of the community metric. -/
def wCommunity : ℚ := 10/100
/-- Weight of the accessibility metric. -/
def wAccessibility : ℚ := 10/100

/-- The six metric scores returned in the `metrics` dictionary. -/
structure ScoreMetrics where
  completeness : ℚ
  freshness : ℚ
  structure_ : ℚ
  examples : ℚ
  community : ℚ
  accessibility : ℚ

/-- The weighted total of `score_repository` before rounding. -/
def weighted_total (m : ScoreMetrics) : ℚ :=
  m.completeness * wCompleteness + m.freshness * wFreshness +
  m.structure_ * wStructure + m.examples * wExamples +
  m.community * wCommunity + m.accessibility * wAccessibility

/-- Round-half-even to an integer, the rounding used by Python `round`. -/
def roundHalfEven (q : ℚ) : ℤ :=
  let f := ⌊q⌋
  let frac := q - f
  if frac < 1/2 then f
  else if 1/2 < frac then f + 1
  else if f % 2 = 0 then f else f + 1

/-- Python `round(x, 2)` on the exact rational model. -/
def pyRound2 (q : ℚ) : ℚ := (roundHalfEven (q * 100) : ℚ) / 100

/-- The dictionary returned by `score_repository`. -/
structure ScoreResult where
  total_score : ℚ
  metrics : ScoreMetrics
  grade : String

/-- The six metric scores of `QualityScorer.score_repository`. -/
def scoreMetricsOf (repo : RepoInfo) (docs : List ScoreDoc) : ScoreMetrics :=
  { completeness := score_completeness docs
    freshness := score_freshness repo
    structure_ := score_structure docs
    examples := score_examples docs
    community := score_community repo
    accessibility := score_accessibility docs }

/-- `QualityScorer.score_repository`: the weighted total is rounded to two
decimals for the `total_score` entry, while the grade is derived from the
unrounded total. -/
def score_repository (repo : RepoInfo) (docs : List ScoreDoc) : ScoreResult :=
  let m := scoreMetricsOf repo docs
  { total_score := pyRound2 (weighted_total m)
    metrics := m
    grade := get_grade (weighted_total m) }

/-! ### C5: grade bands -/

/-- The threshold bands of the grade mapping, written as the ordered
lower-inclusive bands the specification describes — but with the eleven bands
the code actually has. -/
def bandOf (score : ℚ) : String :=
  if score < 40/100 then "F"
  else if score < 50/100 then "D"
  else if score < 55/100 then "C-"
  else if score < 60/100 then "C"
  else if score < 65/100 then "C+"
  else if score < 70/100 then "B-"
  else if score < 75/100 then "B"
  else if score < 80/100 then "B+"
  else if score < 85/100 then "A-"
  else if score < 90/100 then "A"
  else "A+"

/-- C5 counterexample: eleven sample scores, one inside each threshold band
of `get_grade`, receive eleven pairwise distinct grades — so the mapping has
(at least) eleven bands over `[0,1]`, not nine as claimed. -/
theorem get_grade_eleven_bands :
    [(0 : ℚ), 40/100, 50/100, 55/100, 60/100, 65/100, 70/100, 75/100,
      80/100, 85/100, 90/100].map get_grade =
      ["F", "D", "C-", "C", "C+", "B-", "B", "B+", "A-", "A", "A+"] ∧
    (["F", "D", "C-", "C", "C+", "B-", "B", "B+", "A-", "A", "A+"] :
      List String).Nodup := by
  constructor
  · simp only [List.map, get_grade]
    norm_num
  · decide

set_option maxHeartbeats 4000000 in
/-- C5 (amended): the grade mapping is the fixed ordered set of thresholds
from `F` (score < 0.40) up to `A+` (score ≥ 0.90) with ELEVEN total bands
(F, D, C-, C, C+, B-, B, B+, A-, A, A+), each inclusive at its lower edge;
since `bandOf` is a chain of contiguous half-open bands covering every
rational, every score in `[0,1]` receives exactly one grade. -/
theorem get_grade_eq_bandOf (score : ℚ) : get_grade score = bandOf score := by
  simp only [get_grade, bandOf]
  rcases lt_or_le score (40/100 : ℚ) with h0 | h0
  · rw [if_neg (show ¬ (9/10 : ℚ) ≤ score by linarith),
      if_neg (show ¬ (85/100 : ℚ) ≤ score by linarith),
      if_neg (show ¬ (80/100 : ℚ) ≤ score by linarith),
      if_neg (show ¬ (75/100 : ℚ) ≤ score by linarith),
      if_neg (show ¬ (70/100 : ℚ) ≤ score by linarith),
      if_neg (show ¬ (65/100 : ℚ) ≤ score by linarith),
      if_neg (show ¬ (60/100 : ℚ) ≤ score by linarith),
      if_neg (show ¬ (55/100 : ℚ) ≤ score by linarith),
      if_neg (show ¬ (50/100 : ℚ) ≤ score by linarith),
      if_neg (show ¬ (40/100 : ℚ) ≤ score by linarith),
      if_pos h0]
  rcases lt_or_le score (50/100 : ℚ) with h1 | h1
  · rw [if_neg (show ¬ (9/10 : ℚ) ≤ score by linarith),
      if_neg (show ¬ (85/100 : ℚ) ≤ score by linarith),
      if_neg (show ¬ (80/100 : ℚ) ≤ score by linarith),
      if_neg (show ¬ (75/100 : ℚ) ≤ score by linarith),
      if_neg (show ¬ (70/100 : ℚ) ≤ score by linarith),
      if_neg (show ¬ (65/100 : ℚ) ≤ score by linarith),
      if_neg (show ¬ (60/100 : ℚ) ≤ score by linarith),
      if_neg (show ¬ (55/100 : ℚ) ≤ score by linarith),
      if_neg (show ¬ (50/100 : ℚ) ≤ score by linarith),
      if_pos h0,
      if_neg (show ¬ score < (40/100 : ℚ) by linarith),
      if_pos h1]
  rcases lt_or_le score (55/100 : ℚ) with h2 | h2
  · rw [if_neg (show ¬ (9/10 : ℚ) ≤ score by linarith),
      if_neg (show ¬ (85/100 : ℚ) ≤ score by linarith),
      if_neg (show ¬ (80/100 : ℚ) ≤ score by linarith),
      if_neg (show ¬ (75/100 : ℚ) ≤ score by linarith),
      if_neg (show ¬ (70/100 : ℚ) ≤ score by linarith),
      if_neg (show ¬ (65/100 : ℚ) ≤ score by linarith),
      if_neg (show ¬ (60/100 : ℚ) ≤ score by linarith),
      if_neg (show ¬ (55/100 : ℚ) ≤ score by linarith),
      if_pos h1,
      if_neg (show ¬ score < (40/100 : ℚ) by linarith),
      if_neg (show ¬ score < (50/100 : ℚ) by linarith),
      if_pos h2]
  rcases lt_or_le score (60/100 : ℚ) with h3 | h3
  · rw [if_neg (show ¬ (9/10 : ℚ) ≤ score by linarith),
      if_neg (show ¬ (85/100 : ℚ) ≤ score by linarith),
      if_neg (show ¬ (80/100 : ℚ) ≤ score by linarith),
      if_neg (show ¬ (75/100 : ℚ) ≤ score by linarith),
      if_neg (show ¬ (70/100 : ℚ) ≤ score by linarith),
      if_neg (show ¬ (65/100 : ℚ) ≤ score by linarith),
      if_neg (show ¬ (60/100 : ℚ) ≤ score by linarith),
      if_pos h2,
      if_neg (show ¬ score < (40/100 : ℚ) by linarith),
      if_neg (show ¬ score < (50/100 : ℚ) by linarith),
      if_neg (show ¬ score < (55/100 : ℚ) by linarith),
      if_pos h3]
  rcases lt_or_le score (65/100 : ℚ) with h4 | h4
  · rw [if_neg (show ¬ (9/10 : ℚ) ≤ score by linarith),
      if_neg (show ¬ (85/100 : ℚ) ≤ score by linarith),
      if_neg (show ¬ (80/100 : ℚ) ≤ score by linarith),
      if_neg (show ¬ (75/100 : ℚ) ≤ score by linarith),
      if_neg (show ¬ (70/100 : ℚ) ≤ score by linarith),
      if_neg (show ¬ (65/100 : ℚ) ≤ score by linarith),
      if_pos h3,
      if_neg (show ¬ score < (40/100 : ℚ) by linarith),
      if_neg (show ¬ score < (50/100 : ℚ) by linarith),
      if_neg (show ¬ score < (55/100 : ℚ) by linarith),
      if_neg (show ¬ score < (60/100 : ℚ) by linarith),
      if_pos h4]
  rcases lt_or_le score (70/100 : ℚ) with h5 | h5
  · rw [if_neg (show ¬ (9/10 : ℚ) ≤ score by linarith),
      if_neg (show ¬ (85/100 : ℚ) ≤ score by linarith),
      if_neg (show ¬ (80/100 : ℚ) ≤ score by linarith),
      if_neg (show ¬ (75/100 : ℚ) ≤ score by linarith),
      if_neg (show ¬ (70/100 : ℚ) ≤ score by linarith),
      if_pos h4,
      if_neg (show ¬ score < (40/100 : ℚ) by linarith),
      if_neg (show ¬ score < (50/100 : ℚ) by linarith),
      if_neg (show ¬ score < (55/100 : ℚ) by linarith),
      if_neg (show ¬ score < (60/100 : ℚ) by linarith),
      if_neg (show ¬ score < (65/100 : ℚ) by linarith),
      if_pos h5]
  rcases lt_or_le score (75/100 : ℚ) with h6 | h6
  · rw [if_neg (show ¬ (9/10 : ℚ) ≤ score by linarith),
      if_neg (show ¬ (85/100 : ℚ) ≤ score by linarith),
      if_neg (show ¬ (80/100 : ℚ) ≤ score by linarith),
      if_neg (show ¬ (75/100 : ℚ) ≤ score by linarith),
      if_pos h5,
      if_neg (show ¬ score < (40/100 : ℚ) by linarith),
      if_neg (show ¬ score < (50/100 : ℚ) by linarith),
      if_neg (show ¬ score < (55/100 : ℚ) by linarith),
      if_neg (show ¬ score < (60/100 : ℚ) by linarith),
      if_neg (show ¬ score < (65/100 : ℚ) by linarith),
      if_neg (show ¬ score < (70/100 : ℚ) by linarith),
      if_pos h6]
  rcases lt_or_le score (80/100 : ℚ) with h7 | h7
  · rw [if_neg (show ¬ (9/10 : ℚ) ≤ score by linarith),
      if_neg (show ¬ (85/100 : ℚ) ≤ score by linarith),
      if_neg (show ¬ (80/100 : ℚ) ≤ score by linarith),
      if_pos h6,
      if_neg (show ¬ score < (40/100 : ℚ) by linarith),
      if_neg (show ¬ score < (50/100 : ℚ) by linarith),
      if_neg (show ¬ score < (55/100 : ℚ) by linarith),
      if_neg (show ¬ score < (60/100 : ℚ) by linarith),
      if_neg (show ¬ score < (65/100 : ℚ) by linarith),
      if_neg (show ¬ score < (70/100 : ℚ) by linarith),
      if_neg (show ¬ score < (75/100 : ℚ) by linarith),
      if_pos h7]
  rcases lt_or_le score (85/100 : ℚ) with h8 | h8
  · rw [if_neg (show ¬ (9/10 : ℚ) ≤ score by linarith),
      if_neg (show ¬ (85/100 : ℚ) ≤ score by linarith),
      if_pos h7,
      if_neg (show ¬ score < (40/100 : ℚ) by linarith),
      if_neg (show ¬ score < (50/100 : ℚ) by linarith),
      if_neg (show ¬ score < (55/100 : ℚ) by linarith),
      if_neg (show ¬ score < (60/100 : ℚ) by linarith),
      if_neg (show ¬ score < (65/100 : ℚ) by linarith),
      if_neg (show ¬ score < (70/100 : ℚ) by linarith),
      if_neg (show ¬ score < (75/100 : ℚ) by linarith),
      if_neg (show ¬ score < (80/100 : ℚ) by linarith),
      if_pos h8]
  rcases lt_or_le score (90/100 : ℚ) with h9 | h9
  · rw [if_neg (show ¬ (9/10 : ℚ) ≤ score by linarith),
      if_pos h8,
      if_neg (show ¬ score < (40/100 : ℚ) by linarith),
      if_neg (show ¬ score < (50/100 : ℚ) by linarith),
      if_neg (show ¬ score < (55/100 : ℚ) by linarith),
      if_neg (show ¬ score < (60/100 : ℚ) by linarith),
      if_neg (show ¬ score < (65/100 : ℚ) by linarith),
      if_neg (show ¬ score < (70/100 : ℚ) by linarith),
      if_neg (show ¬ score < (75/100 : ℚ) by linarith),
      if_neg (show ¬ score < (80/100 : ℚ) by linarith),
      if_neg (show ¬ score < (85/100 : ℚ) by linarith),
      if_pos h9]
  · rw [if_pos (show (9/10 : ℚ) ≤ score by linarith),
      if_neg (show ¬ score < (40/100 : ℚ) by linarith),
      if_neg (show ¬ score < (50/100 : ℚ) by linarith),
      if_neg (show ¬ score < (55/100 : ℚ) by linarith),
      if_neg (show ¬ score < (60/100 : ℚ) by linarith),
      if_neg (show ¬ score < (65/100 : ℚ) by linarith),
      if_neg (show ¬ score < (70/100 : ℚ) by linarith),
      if_neg (show ¬ score < (75/100 : ℚ) by linarith),
      if_neg (show ¬ score < (80/100 : ℚ) by linarith),
      if_neg (show ¬ score < (85/100 : ℚ) by linarith),
      if_neg (show ¬ score < (90/100 : ℚ) by linarith)]

/-! ### C7: metric bounds and weight normalization -/

/-- An if-then-else of nonnegative rationals is nonnegative. -/
theorem ite_nn {p : Prop} [Decidable p] {a b : ℚ} (ha : 0 ≤ a) (hb : 0 ≤ b) :
    0 ≤ if p then a else b := by
  split
  · exact ha
  · exact hb

/-- The completeness metric lies in `[0,1]`. -/
theorem score_completeness_bounds (docs : List ScoreDoc) :
    0 ≤ score_completeness docs ∧ score_completeness docs ≤ 1 := by
  rw [score_completeness]
  refine ⟨le_min ?_ zero_le_one, min_le_right _ _⟩
  repeat' refine add_nonneg ?_ ?_
  all_goals exact ite_nn (by norm_num) le_rfl

/-- The freshness metric lies in `[0,1]`. -/
theorem score_freshness_bounds (repo : RepoInfo) :
    0 ≤ score_freshness repo ∧ score_freshness repo ≤ 1 := by
  rw [score_freshness]
  rcases repo.pushedDaysAgo with _ | d
  · norm_num
  · dsimp only
    split_ifs <;> norm_num

/-- The structure metric lies in `[0,1]` (the averaged per-path depth credits
are each nonnegative). -/
theorem score_structure_bounds (docs : List ScoreDoc) :
    0 ≤ score_structure docs ∧ score_structure docs ≤ 1 := by
  rw [score_structure]
  refine ⟨le_min ?_ zero_le_one, min_le_right _ _⟩
  have hds : ∀ x ∈ docs.filterMap (fun d =>
      let depth := d.path.count '/'
      if 0 < depth then some (min ((depth : ℚ) * (1/10)) (3/10)) else none), 0 ≤ x := by
    intro x hx
    rcases List.mem_filterMap.mp hx with ⟨d, _, hd⟩
    dsimp only at hd
    split_ifs at hd
    cases hd
    exact le_min (by positivity) (by norm_num)
  refine add_nonneg (add_nonneg (add_nonneg (ite_nn (by norm_num) le_rfl) ?_)
    (ite_nn (by norm_num) le_rfl)) (ite_nn (by norm_num) le_rfl)
  split
  · exact le_rfl
  · exact div_nonneg (List.sum_nonneg hds) (by positivity)

/-- The examples metric lies in `[0,1]`. -/
theorem score_examples_bounds (docs : List ScoreDoc) :
    0 ≤ score_examples docs ∧ score_examples docs ≤ 1 := by
  rw [score_examples]
  refine ⟨le_min ?_ zero_le_one, min_le_right _ _⟩
  refine add_nonneg (add_nonneg (add_nonneg ?_ ?_) (ite_nn (by norm_num) le_rfl)) ?_
  · exact le_min (by positivity) (by norm_num)
  · exact le_min (by positivity) (by norm_num)
  · exact le_min (by positivity) (by norm_num)

/-- The community metric lies in `[0,1]`. -/
theorem score_community_bounds (repo : RepoInfo) :
    0 ≤ score_community repo ∧ score_community repo ≤ 1 := by
  rw [score_community]
  refine ⟨le_min ?_ zero_le_one, min_le_right _ _⟩
  refine add_nonneg (add_nonneg (add_nonneg ?_ (ite_nn (by norm_num) le_rfl))
    (ite_nn (by norm_num) le_rfl)) (ite_nn (by norm_num) le_rfl)
  split_ifs <;> norm_num

/-- The accessibility metric lies in `[0,1]`. -/
theorem score_accessibility_bounds (docs : List ScoreDoc) :
    0 ≤ score_accessibility docs ∧ score_accessibility docs ≤ 1 := by
  rw [score_accessibility]
  refine ⟨le_min ?_ zero_le_one, min_le_right _ _⟩
  refine add_nonneg (add_nonneg (ite_nn (by norm_num) le_rfl) ?_) ?_
  · exact le_min (by positivity) (by norm_num)
  · split_ifs <;> norm_num

/-- Rounding half-to-even never goes below a lower integer bound. -/
theorem roundHalfEven_nonneg {q : ℚ} (h : 0 ≤ q) : 0 ≤ roundHalfEven q := by
  rw [roundHalfEven]
  have h0 : (0 : ℤ) ≤ ⌊q⌋ := Int.floor_nonneg.mpr h
  split_ifs <;> omega

/-- Rounding half-to-even never exceeds an integer upper bound. -/
theorem roundHalfEven_le {q : ℚ} {n : ℤ} (h : q ≤ (n : ℚ)) :
    roundHalfEven q ≤ n := by
  rw [roundHalfEven]
  have hf : ⌊q⌋ ≤ n := by
    have := Int.floor_le_floor h
    simpa using this
  have hfl : (⌊q⌋ : ℚ) ≤ q := Int.floor_le q
  split_ifs with h1 h2 h3
  · exact hf
  · rcases lt_or_eq_of_le hf with hlt | heq
    · omega
    · exfalso
      rw [heq] at h2
      have : (n : ℚ) < q := by linarith
      linarith
  · exact hf
  · have hhalf : q - (⌊q⌋ : ℚ) = 1/2 := le_antisymm (not_lt.mp h2) (not_lt.mp h1)
    have : (⌊q⌋ : ℚ) < (n : ℚ) := by linarith
    have : ⌊q⌋ < n := by exact_mod_cast this
    omega

/-- `round(x, 2)` stays inside `[0,1]` for `x` in `[0,1]`. -/
theorem pyRound2_bounds {q : ℚ} (h0 : 0 ≤ q) (h1 : q ≤ 1) :
    0 ≤ pyRound2 q ∧ pyRound2 q ≤ 1 := by
  rw [pyRound2]
  have hl : 0 ≤ roundHalfEven (q * 100) := roundHalfEven_nonneg (by positivity)
  have hu : roundHalfEven (q * 100) ≤ (100 : ℤ) := roundHalfEven_le (by push_cast; linarith)
  constructor
  · positivity
  · rw [div_le_one (by norm_num)]
    exact_mod_cast hu

/-- C7: every one of the six metric scores computed by `score_repository`
lies in `[0,1]`, the six fixed weights sum to exactly 1, and consequently the
weighted total score (and its rounded `total_score` field) lies in `[0,1]`. -/
theorem score_repository_bounds (repo : RepoInfo) (docs : List ScoreDoc) :
    (0 ≤ (score_repository repo docs).metrics.completeness ∧
      (score_repository repo docs).metrics.completeness ≤ 1) ∧
    (0 ≤ (score_repository repo docs).metrics.freshness ∧
      (score_repository repo docs).metrics.freshness ≤ 1) ∧
    (0 ≤ (score_repository repo docs).metrics.structure_ ∧
      (score_repository repo docs).metrics.structure_ ≤ 1) ∧
    (0 ≤ (score_repository repo docs).metrics.examples ∧
      (score_repository repo docs).metrics.examples ≤ 1) ∧
    (0 ≤ (score_repository repo docs).metrics.community ∧
      (score_repository repo docs).metrics.community ≤ 1) ∧
    (0 ≤ (score_repository repo docs).metrics.accessibility ∧
      (score_repository repo docs).metrics.accessibility ≤ 1) ∧
    wCompleteness + wFreshness + wStructure + wExamples + wCommunity + wAccessibility = 1 ∧
    (0 ≤ weighted_total (score_repository repo docs).metrics ∧
      weighted_total (score_repository repo docs).metrics ≤ 1) ∧
    (0 ≤ (score_repository repo docs).total_score ∧
      (score_repository repo docs).total_score ≤ 1) := by
  have hc := score_completeness_bounds docs
  have hf := score_freshness_bounds repo
  have hs := score_structure_bounds docs
  have he := score_examples_bounds docs
  have hcm := score_community_bounds repo
  have ha := score_accessibility_bounds docs
  have hwsum : wCompleteness + wFreshness + wStructure + wExamples + wCommunity +
      wAccessibility = 1 := by
    rw [wCompleteness, wFreshness, wStructure, wExamples, wCommunity, wAccessibility]
    norm_num
  have hmet : (score_repository repo docs).metrics = scoreMetricsOf repo docs := rfl
  have h1 : (scoreMetricsOf repo docs).completeness = score_completeness docs := rfl
  have h2 : (scoreMetricsOf repo docs).freshness = score_freshness repo := rfl
  have h3 : (scoreMetricsOf repo docs).structure_ = score_structure docs := rfl
  have h4 : (scoreMetricsOf repo docs).examples = score_examples docs := rfl
  have h5 : (scoreMetricsOf repo docs).community = score_community repo := rfl
  have h6 : (scoreMetricsOf repo docs).accessibility = score_accessibility docs := rfl
  have hwnn : (0:ℚ) ≤ wCompleteness ∧ (0:ℚ) ≤ wFreshness ∧ (0:ℚ) ≤ wStructure ∧
      (0:ℚ) ≤ wExamples ∧ (0:ℚ) ≤ wCommunity ∧ (0:ℚ) ≤ wAccessibility := by
    rw [wCompleteness, wFreshness, wStructure, wExamples, wCommunity, wAccessibility]
    norm_num
  obtain ⟨w1, w2, w3, w4, w5, w6⟩ := hwnn
  have htot : 0 ≤ weighted_total (scoreMetricsOf repo docs) ∧
      weighted_total (scoreMetricsOf repo docs) ≤ 1 := by
    rw [weighted_total, h1, h2, h3, h4, h5, h6]
    constructor
    · have := mul_nonneg hc.1 w1
      have := mul_nonneg hf.1 w2
      have := mul_nonneg hs.1 w3
      have := mul_nonneg he.1 w4
      have := mul_nonneg hcm.1 w5
      have := mul_nonneg ha.1 w6
      linarith
    · have := mul_le_of_le_one_left w1 hc.2
      have := mul_le_of_le_one_left w2 hf.2
      have := mul_le_of_le_one_left w3 hs.2
      have := mul_le_of_le_one_left w4 he.2
      have := mul_le_of_le_one_left w5 hcm.2
      have := mul_le_of_le_one_left w6 ha.2
      linarith
  have hts : (score_repository repo docs).total_score =
      pyRound2 (weighted_total (scoreMetricsOf repo docs)) := rfl
  have hround := pyRound2_bounds htot.1 htot.2
  rw [hmet, h1, h2, h3, h4, h5, h6, hts]
  exact ⟨hc, hf, hs, he, hcm, ha, hwsum, htot, hround⟩

/-! ### C9: end-to-end scoring of a concrete repository -/

/-- C9 witness input: a plain readme at the repository root. -/
def c9_readme : ScoreDoc := { path := lit "readme.md" }

/-- C9 witness input: the documentation file containing a table of contents
and exactly two fenced code blocks. -/
def c9_toc_doc : ScoreDoc :=
  { path := lit "docs/api-install-example-changelog-contributing.md",
    content := some (lit "## Table of Contents\n```\nx\n```\n```\ny\n```\n") }

/-- C9 witness input: a guide with example keywords and inline code. -/
def c9_guide : ScoreDoc :=
  { path := lit "docs/guide.md",
    content := some (lit "example example example example example playground `a` `b` `c`") }

/-- C9 witness input: the three-document bundle. -/
def c9_docs : List ScoreDoc := [c9_readme, c9_toc_doc, c9_guide]

/-- C9 witness input: repository metadata (no parseable push date, 20000
stars, topics, description and license present). -/
def c9_repo : RepoInfo :=
  { pushedDaysAgo := none, stargazers_count := 20000, topics := [lit "a"],
    description := some (lit "d"), license := some (lit "mit") }

/-- Completeness credit of the witness bundle. -/
theorem c9_completeness : score_completeness c9_docs = 1 := by
  rw [score_completeness]
  simp +decide
  norm_num [min_def]

/-- Freshness of the witness repository (no push date gives the default). -/
theorem c9_freshness : score_freshness c9_repo = 1/2 := rfl

/-- Structure credit of the witness bundle. -/
theorem c9_structure : score_structure c9_docs = 3/10 := by
  have h1 : List.count '/' c9_readme.path = 0 := by decide
  have h2 : List.count '/' c9_toc_doc.path = 1 := by decide
  have h3 : List.count '/' c9_guide.path = 1 := by decide
  rw [score_structure]
  simp only [c9_docs, List.filterMap_cons, List.filterMap_nil, List.map_cons, List.map_nil]
  simp only [h1, h2, h3]
  simp +decide
  norm_num [min_def]

/-- Examples credit of the witness bundle. -/
theorem c9_examples : score_examples c9_docs = 23/50 := by
  have hcb : countCodeBlocks (joinSpace (c9_docs.map (fun d => (d.content.getD []).take 5000))) = 2 := by decide
  have hic : countInlineCode (joinSpace (c9_docs.map (fun d => (d.content.getD []).take 5000))) = 6 := by decide
  have hk1 : strCount (pyLower (joinSpace (c9_docs.map (fun d => (d.content.getD []).take 5000)))) (lit "example") = 5 := by decide
  have hk2 : strCount (pyLower (joinSpace (c9_docs.map (fun d => (d.content.getD []).take 5000)))) (lit "sample") = 0 := by decide
  have hk3 : strCount (pyLower (joinSpace (c9_docs.map (fun d => (d.content.getD []).take 5000)))) (lit "demo") = 0 := by decide
  have hk4 : strCount (pyLower (joinSpace (c9_docs.map (fun d => (d.content.getD []).take 5000)))) (lit "tutorial") = 0 := by decide
  have hk5 : strCount (pyLower (joinSpace (c9_docs.map (fun d => (d.content.getD []).take 5000)))) (lit "quickstart") = 0 := by decide
  have hk6 : strCount (pyLower (joinSpace (c9_docs.map (fun d => (d.content.getD []).take 5000)))) (lit "getting started") = 0 := by decide
  rw [score_examples]
  simp only [List.map_cons, List.map_nil, List.sum_cons, List.sum_nil] at *
  simp only [hcb, hic, hk1, hk2, hk3, hk4, hk5, hk6]
  simp +decide
  norm_num [min_def]

/-- Community credit of the witness repository. -/
theorem c9_community : score_community c9_repo = 1 := by
  rw [score_community]
  simp +decide
  norm_num [min_def]

/-- Accessibility credit of the witness bundle. -/
theorem c9_accessibility : score_accessibility c9_docs = 9/10 := by
  have hm : (c9_docs.filter (fun d =>
      [lit "install", lit "setup", lit "guide", lit "tutorial",
        lit "api", lit "reference"].any (fun n => strContains (pyLower d.path) n))).length = 2 := by decide
  rw [score_accessibility]
  simp only [List.any_cons, List.any_nil] at hm ⊢
  simp only [hm]
  simp +decide
  norm_num [min_def]

/-- The unrounded weighted total of the witness input. -/
theorem c9_total : weighted_total (scoreMetricsOf c9_repo c9_docs) = 669/1000 := by
  rw [weighted_total,
    show (scoreMetricsOf c9_repo c9_docs).completeness = score_completeness c9_docs from rfl,
    show (scoreMetricsOf c9_repo c9_docs).freshness = score_freshness c9_repo from rfl,
    show (scoreMetricsOf c9_repo c9_docs).structure_ = score_structure c9_docs from rfl,
    show (scoreMetricsOf c9_repo c9_docs).examples = score_examples c9_docs from rfl,
    show (scoreMetricsOf c9_repo c9_docs).community = score_community c9_repo from rfl,
    show (scoreMetricsOf c9_repo c9_docs).accessibility = score_accessibility c9_docs from rfl,
    c9_completeness, c9_freshness, c9_structure, c9_examples, c9_community, c9_accessibility,
    wCompleteness, wFreshness, wStructure, wExamples, wCommunity, wAccessibility]
  norm_num

/-- C9: a repository with exactly three documents, one containing
`"## Table of Contents"` and exactly two fenced code blocks, earns nonzero
completeness and structure credit, a weighted total of 0.669 ≥ 0.50, and
grade `B-`, which is above `C-` in the band order established for C5. -/
theorem score_repository_end_to_end :
    c9_docs.length = 3 ∧
    strContains (c9_toc_doc.content.getD []) (lit "## Table of Contents") = true ∧
    countCodeBlocks (c9_toc_doc.content.getD []) = 2 ∧
    0 < (score_repository c9_repo c9_docs).metrics.completeness ∧
    0 < (score_repository c9_repo c9_docs).metrics.structure_ ∧
    1/2 ≤ weighted_total (score_repository c9_repo c9_docs).metrics ∧
    (score_repository c9_repo c9_docs).grade = "B-" := by
  have hmet : (score_repository c9_repo c9_docs).metrics = scoreMetricsOf c9_repo c9_docs := rfl
  have hgr : (score_repository c9_repo c9_docs).grade =
      get_grade (weighted_total (scoreMetricsOf c9_repo c9_docs)) := rfl
  refine ⟨rfl, by decide, by decide, ?_, ?_, ?_, ?_⟩
  · rw [hmet, show (scoreMetricsOf c9_repo c9_docs).completeness = score_completeness c9_docs from rfl,
      c9_completeness]
    norm_num
  · rw [hmet, show (scoreMetricsOf c9_repo c9_docs).structure_ = score_structure c9_docs from rfl,
      c9_structure]
    norm_num
  · rw [hmet, c9_total]
    norm_num
  · rw [hgr, c9_total, get_grade]
    norm_num

/-! ## Document store (`src/database.py`)

The SQLite store is modelled as three row lists.  `INTEGER PRIMARY KEY`
rowids are assigned as one more than the current maximum, SQLite's rule for
tables without `AUTOINCREMENT`; the FTS5 table follows the same rule.  The
connection never enables `PRAGMA foreign_keys`, so the `FOREIGN KEY`
declaration on `documents.repo_id` is NOT enforced — `add_document` accepts a
`repo_id` with no repository row, and the `AFTER INSERT` trigger (whose body
selects the repository's `full_name`) then inserts no index entry. -/

/-- The opening brace and closing brace as characters. -/
def lbrace : Char := Char.ofNat 123
/-- The closing brace character. -/
def rbrace : Char := Char.ofNat 125

/-- One hexadecimal digit (lowercase), as emitted by `json.dumps` escapes. -/
def hexDigit (n : Nat) : Char :=
  if n < 10 then Char.ofNat (48 + n) else Char.ofNat (87 + n)

/-- Four hexadecimal digits of a code unit. -/
def hex4 (n : Nat) : PyStr :=
  [hexDigit (n / 4096 % 16), hexDigit (n / 256 % 16), hexDigit (n / 16 % 16), hexDigit (n % 16)]

/-- The serialization of one character under `json.dumps` with
`ensure_ascii=True` (its length is `jsonEscLen`). -/
def escapeChar (c : Char) : PyStr :=
  if c.val = 34 then [Char.ofNat 92, Char.ofNat 34]
  else if c.val = 92 then [Char.ofNat 92, Char.ofNat 92]
  else if c.val = 8 then [Char.ofNat 92, 'b']
  else if c.val = 9 then [Char.ofNat 92, 't']
  else if c.val = 10 then [Char.ofNat 92, 'n']
  else if c.val = 12 then [Char.ofNat 92, 'f']
  else if c.val = 13 then [Char.ofNat 92, 'r']
  else if c.val < 32 ∨ (127 ≤ c.val ∧ c.val < 65536) then
    Char.ofNat 92 :: 'u' :: hex4 c.toNat
  else if 65536 ≤ c.val then
    (Char.ofNat 92 :: 'u' :: hex4 (55296 + (c.toNat - 65536) / 1024)) ++
    (Char.ofNat 92 :: 'u' :: hex4 (56320 + (c.toNat - 65536) % 1024))
  else [c]

/-- `json.dumps` of a string. -/
def jsonQuote (s : PyStr) : PyStr :=
  Char.ofNat 34 :: (s.flatMap escapeChar ++ [Char.ofNat 34])

/-- `json.dumps` of a list of strings, as `upsert_repository` applies to the
`doc_paths` and `topics` inputs. -/
def jsonEncList (l : List PyStr) : PyStr :=
  lit "[" ++ joinSep (lit ", ") (l.map jsonQuote) ++ lit "]"

/-- A row of the `repositories` table. -/
structure RepoRow where
  id : Nat
  owner : PyStr
  name : PyStr
  full_name : PyStr
  stars : Nat
  language : Option PyStr
  category : Option PyStr
  description : Option PyStr
  source : PyStr
  quality_score : ℚ
  quality_grade : String
  quality_metrics : PyStr
  priority : PyStr
  doc_paths : PyStr
  topics : PyStr

/-- A row of the `documents` table. -/
structure DocRow where
  id : Nat
  repo_id : Nat
  path : PyStr
  content : PyStr
  content_hash : PyStr

/-- A row of the `documents_fts` FTS5 table; the `repo_full_name` column can
hold NULL because the update trigger fills it from a scalar subquery. -/
structure FtsRow where
  rowid : Nat
  repo_full_name : Option PyStr
  path : PyStr
  content : PyStr

/-- The persistent store. -/
structure DbState where
  repos : List RepoRow
  docs : List DocRow
  fts : List FtsRow

/-- A fresh store created by `init_database`. -/
def initState : DbState := ⟨[], [], []⟩

/-- The `repo_data` dictionary consumed by `upsert_repository`; `none`
models an absent key, and the `.get` defaults are applied exactly where the
Python code builds the SQL parameter tuple.  `quality_metrics` is modelled as
the already-serialized JSON text of the metrics dictionary (the store only
passes it through); its default is the serialization of `{}` . -/
structure RepoData where
  owner : PyStr
  name : PyStr
  full_name : PyStr
  stars : Option Nat := none
  language : Option PyStr := none
  category : Option PyStr := none
  description : Option PyStr := none
  source : Option PyStr := none
  quality_score : Option ℚ := none
  quality_grade : Option String := none
  quality_metrics : PyStr := [lbrace, rbrace]
  priority : Option PyStr := none
  doc_paths : List PyStr := []
  topics : List PyStr := []

/-- `UnifiedDocsDatabase.upsert_repository`: insert, or on an `(owner, name)`
conflict update the mutable columns — `category` and `description` through
`COALESCE` (kept unless the incoming value is non-null), everything else
overwritten; `id`, `owner`, `name`, `full_name`, `source` and the timestamps
are untouched by the update.  An insert whose `full_name` collides with a
different row violates the plain `UNIQUE` constraint, which the upsert clause
does not cover, and raises `IntegrityError`. -/
def upsert_repository (t : List RepoRow) (d : RepoData) : Except String (List RepoRow) :=
  match t.find? (fun r => decide (r.owner = d.owner ∧ r.name = d.name)) with
  | some _ =>
    Except.ok (t.map (fun r =>
      if r.owner = d.owner ∧ r.name = d.name then
        { r with
          stars := d.stars.getD 0,
          language := d.language,
          category := d.category.orElse (fun _ => r.category),
          description := d.description.orElse (fun _ => r.description),
          quality_score := d.quality_score.getD (1/2),
          quality_grade := d.quality_grade.getD "C",
          quality_metrics := d.quality_metrics,
          priority := d.priority.getD (lit "medium"),
          doc_paths := jsonEncList d.doc_paths,
          topics := jsonEncList d.topics }
      else r))
  | none =>
    if t.any (fun r => decide (r.full_name = d.full_name)) then
      Except.error "UNIQUE constraint failed"
    else
      Except.ok (t ++ [{
        id := (t.map (fun r => r.id)).foldr max 0 + 1,
        owner := d.owner, name := d.name, full_name := d.full_name,
        stars := d.stars.getD 0, language := d.language,
        category := d.category, description := d.description,
        source := d.source.getD (lit "discovered"),
        quality_score := d.quality_score.getD (1/2),
        quality_grade := d.quality_grade.getD "C",
        quality_metrics := d.quality_metrics,
        priority := d.priority.getD (lit "medium"),
        doc_paths := jsonEncList d.doc_paths,
        topics := jsonEncList d.topics }])

/-- `UnifiedDocsDatabase.add_document` together with the `documents_ai` and
`documents_au` triggers: an upsert on `(repo_id, path)`, mirrored into
`documents_fts`.  On insert, the trigger's `INSERT ... SELECT` adds one index
row only when the repository row exists; on update, the trigger rewrites the
index row whose rowid equals the document's id. -/
def add_document (s : DbState) (repo_id : Nat) (path content content_hash : PyStr) :
    DbState :=
  match s.docs.find? (fun dd => decide (dd.repo_id = repo_id ∧ dd.path = path)) with
  | some existing =>
    let docs := s.docs.map (fun dd =>
      if dd.repo_id = repo_id ∧ dd.path = path then
        { dd with content := content, content_hash := content_hash }
      else dd)
    let newFull := (s.repos.find? (fun r => decide (r.id = repo_id))).map (fun r => r.full_name)
    let fts := s.fts.map (fun f =>
      if f.rowid = existing.id then
        { f with repo_full_name := newFull, path := path, content := content }
      else f)
    { s with docs := docs, fts := fts }
  | none =>
    let newId := (s.docs.map (fun dd => dd.id)).foldr max 0 + 1
    let newDoc : DocRow :=
      { id := newId, repo_id := repo_id, path := path,
        content := content, content_hash := content_hash }
    let docs := s.docs ++ [newDoc]
    let fts := match s.repos.find? (fun r => decide (r.id = repo_id)) with
      | some r =>
        let newRow : FtsRow :=
          { rowid := (s.fts.map (fun f => f.rowid)).foldr max 0 + 1,
            repo_full_name := some r.full_name, path := path, content := content }
        s.fts ++ [newRow]
      | none => s.fts
    { s with docs := docs, fts := fts }

/-- `DELETE FROM documents WHERE id = ?` together with the `documents_ad`
trigger, which removes the index row with the same rowid. -/
def delete_document (s : DbState) (doc_id : Nat) : DbState :=
  { s with docs := s.docs.filter (fun dd => decide (dd.id ≠ doc_id)),
           fts := s.fts.filter (fun f => decide (f.rowid ≠ doc_id)) }

/-- `UnifiedDocsDatabase.rebuild_fts_index`: clear the index and repopulate
it from the documents that join to an existing repository, returning the
inserted row count. -/
def rebuild_fts_index (s : DbState) : DbState × Nat :=
  let rows := s.docs.filterMap (fun dd =>
    (s.repos.find? (fun r => decide (r.id = dd.repo_id))).map (fun r =>
      (r.full_name, dd.path, dd.content)))
  let fts := rows.enum.map (fun p =>
    ({ rowid := p.1 + 1, repo_full_name := some p.2.1, path := p.2.2.1,
       content := p.2.2.2 } : FtsRow))
  ({ s with fts := fts }, rows.length)

/-- A row of the result set of `search_documents`. -/
structure SearchRow where
  full_name : PyStr
  stars : Nat
  category : Option PyStr
  description : Option PyStr
  source : PyStr
  quality_score : ℚ
  path : PyStr
  snippet : PyStr
  rank : ℚ

/-- The optional filters of `search_documents`; a filter whose value is
falsy in Python (absent, zero, or an empty string) adds no SQL clause. -/
structure SearchFilters where
  min_stars : Option Nat := none
  category : Option PyStr := none
  source : Option PyStr := none

/-- The WHERE clauses contributed by the filters. -/
def filterPred (flt : SearchFilters) (row : SearchRow) : Bool :=
  (match flt.min_stars with
   | some v => if v = 0 then true else decide (v ≤ row.stars)
   | none => true) &&
  (match flt.category with
   | some c => if c.isEmpty then true else decide (row.category = some c)
   | none => true) &&
  (match flt.source with
   | some sv => if sv.isEmpty then true else decide (row.source = sv)
   | none => true)

/-- The comparator of `ORDER BY rank, r.quality_score DESC, r.stars DESC`:
relevance rank ascending, then quality score descending, then star count
descending. -/
def searchLe (a b : SearchRow) : Bool :=
  decide (a.rank < b.rank) ||
  (decide (a.rank = b.rank) &&
    (decide (b.quality_score < a.quality_score) ||
      (decide (a.quality_score = b.quality_score) && decide (b.stars ≤ a.stars))))

/-- `UnifiedDocsDatabase.search_documents`.  FTS5's `MATCH` predicate, its
`bm25`-based `rank` value and the `snippet` function are engine internals and
enter the model as parameters; the query itself joins the matching index rows
to `documents` on `path` alone and to `repositories` on the stored full name,
applies the filters, orders by the comparator and caps at 50 rows. -/
def search_documents (s : DbState) (matchQ : FtsRow → Bool) (rankF : FtsRow → ℚ)
    (snippetF : FtsRow → PyStr) (flt : SearchFilters) : List SearchRow :=
  let joined := (s.fts.filter matchQ).flatMap (fun f =>
    (s.docs.filter (fun dd => decide (dd.path = f.path))).flatMap (fun _d =>
      (s.repos.filter (fun r => decide (some r.full_name = f.repo_full_name))).map (fun r =>
        { full_name := r.full_name, stars := r.stars, category := r.category,
          description := r.description, source := r.source,
          quality_score := r.quality_score, path := f.path,
          snippet := snippetF f, rank := rankF f })))
  ((joined.filter (filterPred flt)).mergeSort searchLe).take 50

/-! ### C3: result cap and ordering -/

/-- The search comparator is transitive. -/
theorem searchLe_trans : ∀ (a b c : SearchRow), searchLe a b → searchLe b c → searchLe a c := by
  intro a b c h1 h2
  simp only [searchLe, Bool.or_eq_true, Bool.and_eq_true, decide_eq_true_eq] at h1 h2 ⊢
  rcases h1 with h1 | ⟨h1e, h1q⟩
  · rcases h2 with h2 | ⟨h2e, _⟩
    · exact Or.inl (lt_trans h1 h2)
    · exact Or.inl (h2e ▸ h1)
  · rcases h2 with h2 | ⟨h2e, h2q⟩
    · exact Or.inl (h1e ▸ h2)
    · refine Or.inr ⟨h1e.trans h2e, ?_⟩
      rcases h1q with h1q | ⟨h1qe, h1s⟩
      · rcases h2q with h2q | ⟨h2qe, _⟩
        · exact Or.inl (lt_trans h2q h1q)
        · exact Or.inl (h2qe ▸ h1q)
      · rcases h2q with h2q | ⟨h2qe, h2s⟩
        · exact Or.inl (h1qe ▸ h2q)
        · exact Or.inr ⟨h1qe.trans h2qe, le_trans h2s h1s⟩

/-- The search comparator is total. -/
theorem searchLe_total : ∀ (a b : SearchRow), searchLe a b || searchLe b a := by
  intro a b
  simp only [searchLe, Bool.or_eq_true, Bool.and_eq_true, decide_eq_true_eq]
  rcases lt_trichotomy a.rank b.rank with h | h | h
  · exact Or.inl (Or.inl h)
  · rcases lt_trichotomy a.quality_score b.quality_score with hq | hq | hq
    · exact Or.inr (Or.inr ⟨h.symm, Or.inl hq⟩)
    · rcases le_total b.stars a.stars with hs | hs
      · exact Or.inl (Or.inr ⟨h, Or.inr ⟨hq, hs⟩⟩)
      · exact Or.inr (Or.inr ⟨h.symm, Or.inr ⟨hq.symm, hs⟩⟩)
    · exact Or.inl (Or.inr ⟨h, Or.inl hq⟩)
  · exact Or.inr (Or.inl h)

/-- C3: for every store, query (modelled by its match, rank and snippet
oracles) and filter combination, `search_documents` returns at most 50 rows,
and the rows are ordered by (relevance rank, quality score descending, stars
descending). -/
theorem search_documents_spec (s : DbState) (matchQ : FtsRow → Bool) (rankF : FtsRow → ℚ)
    (snippetF : FtsRow → PyStr) (flt : SearchFilters) :
    (search_documents s matchQ rankF snippetF flt).length ≤ 50 ∧
    List.Pairwise (fun a b => searchLe a b = true)
      (search_documents s matchQ rankF snippetF flt) := by
  constructor
  · rw [search_documents]
    simp only [List.length_take]
    exact min_le_left _ _
  · rw [search_documents]
    exact List.Pairwise.sublist (List.take_sublist _ _)
      (List.sorted_mergeSort searchLe_trans searchLe_total _)

/-! ### C1: the document / full-text-index correspondence -/

/-- C1: evaluating the store at the failing input.  On a fresh store,
`add_document` with a repository id that has no repository row (the spec
requires `NotFoundError` here, and the schema declares a foreign key that
sqlite3 leaves unenforced) inserts a live document row while the
`AFTER INSERT` trigger adds NO index entry — and even `rebuild_fts_index`
then reports 0 indexed documents against 1 live document, so the
"no omissions" invariant is broken. -/
theorem add_document_orphan :
    (add_document initState 999 (lit "a.md") (lit "hello") (lit "h")).docs =
      [{ id := 1, repo_id := 999, path := lit "a.md", content := lit "hello",
         content_hash := lit "h" }] ∧
    (add_document initState 999 (lit "a.md") (lit "hello") (lit "h")).fts = [] ∧
    (rebuild_fts_index (add_document initState 999 (lit "a.md") (lit "hello") (lit "h"))).2
      = 0 := by
  refine ⟨rfl, rfl, rfl⟩

/-! ### C6: upsert coalesce semantics -/

/-- The repository row left by upserting `d1` into an empty table and then
`d2` with the same `(owner, name)` key. -/
def upsertMerge (d1 d2 : RepoData) : RepoRow :=
  { id := 1, owner := d1.owner, name := d1.name, full_name := d1.full_name,
    stars := d2.stars.getD 0, language := d2.language,
    category := d2.category.orElse (fun _ => d1.category),
    description := d2.description.orElse (fun _ => d1.description),
    source := d1.source.getD (lit "discovered"),
    quality_score := d2.quality_score.getD (1/2),
    quality_grade := d2.quality_grade.getD "C",
    quality_metrics := d2.quality_metrics,
    priority := d2.priority.getD (lit "medium"),
    doc_paths := jsonEncList d2.doc_paths,
    topics := jsonEncList d2.topics }

/-- C6: `upsert_repository` applied twice with the same `(owner, name)`
identity yields exactly one repository row; the stored category and
description are preserved unless the second call supplies a non-null
replacement, while stars, language, quality score/grade/metrics, priority
and the doc-path and topic lists come from the second call. -/
theorem upsert_repository_twice (d1 d2 : RepoData)
    (howner : d2.owner = d1.owner) (hname : d2.name = d1.name) :
    ∃ r : RepoRow,
      (upsert_repository [] d1).bind (fun t1 => upsert_repository t1 d2) = Except.ok [r] ∧
      r.owner = d1.owner ∧ r.name = d1.name ∧ r.full_name = d1.full_name ∧
      r.source = d1.source.getD (lit "discovered") ∧
      r.stars = d2.stars.getD 0 ∧
      r.language = d2.language ∧
      r.category = d2.category.orElse (fun _ => d1.category) ∧
      r.description = d2.description.orElse (fun _ => d1.description) ∧
      r.quality_score = d2.quality_score.getD (1/2) ∧
      r.quality_grade = d2.quality_grade.getD "C" ∧
      r.quality_metrics = d2.quality_metrics ∧
      r.priority = d2.priority.getD (lit "medium") ∧
      r.doc_paths = jsonEncList d2.doc_paths ∧
      r.topics = jsonEncList d2.topics := by
  refine ⟨upsertMerge d1 d2, ?_, rfl, rfl, rfl, rfl, rfl, rfl, rfl, rfl,
    rfl, rfl, rfl, rfl, rfl, rfl⟩
  simp [upsert_repository, howner, hname, upsertMerge, Except.bind, List.find?]

/-- C6 witness input: the first upsert, with a category and description. -/
def c6_d1 : RepoData :=
  { owner := lit "o", name := lit "n", full_name := lit "o/n",
    stars := some 5, category := some (lit "ai"), description := some (lit "old") }

/-- C6 witness input: the second upsert, same key, no category, new
description. -/
def c6_d2 : RepoData :=
  { owner := lit "o", name := lit "n", full_name := lit "o/n",
    stars := some 7, description := some (lit "new") }

/-- C6 witness: the coalesce semantics at a concrete pair of upserts. -/
theorem upsert_repository_twice_witness :
    ∃ r : RepoRow,
      (upsert_repository [] c6_d1).bind (fun t1 => upsert_repository t1 c6_d2) =
        Except.ok [r] ∧
      r.owner = c6_d1.owner ∧ r.name = c6_d1.name ∧ r.full_name = c6_d1.full_name ∧
      r.source = c6_d1.source.getD (lit "discovered") ∧
      r.stars = c6_d2.stars.getD 0 ∧
      r.language = c6_d2.language ∧
      r.category = c6_d2.category.orElse (fun _ => c6_d1.category) ∧
      r.description = c6_d2.description.orElse (fun _ => c6_d1.description) ∧
      r.quality_score = c6_d2.quality_score.getD (1/2) ∧
      r.quality_grade = c6_d2.quality_grade.getD "C" ∧
      r.quality_metrics = c6_d2.quality_metrics ∧
      r.priority = c6_d2.priority.getD (lit "medium") ∧
      r.doc_paths = jsonEncList c6_d2.doc_paths ∧
      r.topics = jsonEncList c6_d2.topics :=
  upsert_repository_twice c6_d1 c6_d2 rfl rfl

/-! ## Search analytics (`src/search_analytics.py`)

`log_search` maintains the popular-search aggregate `(search_count,
avg_results_count, avg_search_time)` by the incremental-mean update.  Claim
C4 asserts bit-for-bit equality of this running average with a replay of the
full log; the stored values are IEEE-754 doubles (SQLite `REAL`), whose
rounding is outside this embedding, so the claim itself is not settled here.
Over the exact rationals of this model, the corresponding equality is proved
below: the incremental aggregate equals the mean of the full log. -/

/-- One `log_search` update of the popular-search aggregate: the first call
inserts `(1, results, time)`, later calls apply
`newAvg = (oldAvg * oldCount + new) / (oldCount + 1)`. -/
def popularStep (p : Nat × ℚ × ℚ) (e : ℚ × ℚ) : Nat × ℚ × ℚ :=
  if p.1 = 0 then (1, e.1, e.2)
  else (p.1 + 1, (p.2.1 * p.1 + e.1) / (p.1 + 1), (p.2.2 * p.1 + e.2) / (p.1 + 1))

/-- The aggregate after a sequence of `log_search` calls for one query. -/
def popularAgg (log : List (ℚ × ℚ)) : Nat × ℚ × ℚ :=
  log.foldl popularStep (0, 0, 0)

/-- Folding from a consistent state `(c, sr/c, st/c)` keeps the aggregate
equal to the replayed mean. -/
theorem popularAgg_aux : ∀ (log : List (ℚ × ℚ)) (c : Nat) (sr st : ℚ), 0 < c →
    log.foldl popularStep (c, sr / c, st / c) =
      (c + log.length, (sr + (log.map Prod.fst).sum) / (c + log.length),
        (st + (log.map Prod.snd).sum) / (c + log.length)) := by
  intro log
  induction log with
  | nil =>
    intro c sr st hc
    simp
  | cons e rest ih =>
    intro c sr st hc
    have hc0 : (c : ℚ) ≠ 0 := by positivity
    have hstep : popularStep (c, sr / c, st / c) e =
        (c + 1, (sr + e.1) / (c + 1), (st + e.2) / (c + 1)) := by
      rw [popularStep]
      have : ¬ c = 0 := by omega
      simp only [this, if_false]
      rw [div_mul_cancel₀ sr hc0, div_mul_cancel₀ st hc0]
    rw [List.foldl_cons, hstep]
    have h1 : ((c + 1 : Nat) : ℚ) = (c : ℚ) + 1 := by push_cast; ring
    have := ih (c + 1) (sr + e.1) (st + e.2) (by omega)
    rw [h1] at this
    rw [this]
    simp only [List.map_cons, List.sum_cons, List.length_cons]
    push_cast
    simp only [Prod.mk.injEq]
    refine ⟨by omega, by ring_nf, by ring_nf⟩

/-- Over exact arithmetic, the incrementally maintained aggregate equals the
replay of the full log: the count is the log length and both running
averages are the arithmetic means of the logged values. -/
theorem popularAgg_eq_replay (e : ℚ × ℚ) (rest : List (ℚ × ℚ)) :
    popularAgg (e :: rest) =
      ((e :: rest).length,
        ((e :: rest).map Prod.fst).sum / (e :: rest).length,
        ((e :: rest).map Prod.snd).sum / (e :: rest).length) := by
  rw [popularAgg, List.foldl_cons]
  have hfirst : popularStep (0, 0, 0) e = (1, e.1 / 1, e.2 / 1) := by
    rw [popularStep]
    norm_num
  have haux := popularAgg_aux rest 1 e.1 e.2 (by omega)
  rw [Nat.cast_one] at haux
  rw [hfirst, haux]
  simp only [List.map_cons, List.sum_cons, List.length_cons, Prod.mk.injEq]
  push_cast
  refine ⟨by omega, by ring_nf, by ring_nf⟩
